import Mathlib

/-!
Verification of the Étoile Noire restaurant backend (src/main.py) against its
natural-language specification.  The Python source is shallowly embedded:
pure functions become Lean functions, HTTP handlers become functions from the
request data (and the state of the document store, passed explicitly) to a
status code and a response value, and Python exceptions become `Except`.
-/

namespace EtoileNoire

/-- Characters removed by Python `str.strip()` (whitespace). -/
def isPySpace (c : Char) : Bool :=
  c = ' ' || c = '\t' || c = '\n' || c = '\r' || c = '\x0b' || c = '\x0c'

/-- Python `s.strip()`: drop leading and trailing whitespace. -/
def pyStrip (s : String) : String :=
  ⟨((s.data.dropWhile isPySpace).reverse.dropWhile isPySpace).reverse⟩

/-- Python `s.lower()`, character-wise lowering (line 110: `t = text.lower()`). -/
def pyLower (s : String) : String := ⟨s.data.map Char.toLower⟩

/-- Python substring test `k in t`, on character lists: `k` occurs contiguously in `t`. -/
def infixB (k : List Char) : List Char → Bool
  | [] => k.isEmpty
  | c :: t => k.isPrefixOf (c :: t) || infixB k t

/-- Python `k in t` for strings. -/
def pyIn (k t : String) : Bool := infixB k.data t.data

/-- Python `any(k in t for k in ks)` (lines 114, 118, 121, 124, 130). -/
def anyIn (ks : List String) (t : String) : Bool := ks.any (fun k => pyIn k t)

/-- `infixB` decides the list-infix relation. -/
theorem infixB_iff (k t : List Char) : infixB k t = true ↔ k <:+: t := by
  induction t with
  | nil =>
    simp [infixB, List.isEmpty_iff, List.infix_nil]
  | cons c t ih =>
    simp [infixB, List.infix_cons_iff, ih, List.isPrefixOf_iff_prefix]

/-- `anyIn` decides "some keyword of the group occurs as a substring of the text". -/
theorem anyIn_iff (ks : List String) (t : String) :
    anyIn ks t = true ↔ ∃ k ∈ ks, k.data <:+: t.data := by
  simp [anyIn, pyIn, List.any_eq_true, infixB_iff]

/-- Response model of the chat endpoint (lines 103–106).  `maybe_reservation`
is declared `Optional[Dict[str, Any]]` in the source; the code never builds a
dictionary for it, so an association list stands in for the dictionary type. -/
structure ChatResponse where
  reply : String
  suggestions : List String := []
  maybe_reservation : Option (List (String × String)) := none
deriving DecidableEq

/-- Body of `simple_recommender` (lines 109–138) after the five keyword tests
have been evaluated: `b1` wine group, `b2` steak group, `b3` vegan group,
`b4` dessert group, `b5` booking group.  The sequential updates of
`suggestions` and `reply` mirror the source statements in order. -/
def recCore (b1 b2 b3 b4 b5 : Bool) : ChatResponse :=
  let suggestions : List String := []
  let reply : String := ""
  let (suggestions, reply) :=
    if b1 then
      (suggestions ++ ["Grand Cru Burgundy 2015", "Vintage Champagne Brut 2008"],
       "Our sommelier recommends a Grand Cru Burgundy with rich mains or a vintage Champagne to open the evening.")
    else (suggestions, reply)
  let (suggestions, reply) :=
    if b2 then
      (suggestions ++ ["A5 Miyazaki Wagyu with black truffle jus"],
       pyStrip (reply ++ " ") ++ " Our signature A5 Wagyu is seared over binchotan and finished with truffle jus.")
    else (suggestions, reply)
  let (suggestions, reply) :=
    if b3 then
      (suggestions ++ ["Charred Romanesco with almond velouté"],
       pyStrip (reply ++ " ") ++ " We offer refined plant-forward courses like Charred Romanesco with almond velouté.")
    else (suggestions, reply)
  let (suggestions, reply) :=
    if b4 then
      (suggestions ++ ["72% Dark Chocolate Marquis with gold leaf"],
       pyStrip (reply ++ " ") ++ " For dessert, the Dark Chocolate Marquis adorned with gold leaf is exquisite.")
    else (suggestions, reply)
  let maybe_reservation : Option (List (String × String)) := none
  let reply :=
    if b5 then
      pyStrip (reply ++ " ") ++ " I can book a table for you. Please share date, time, and party size."
    else reply
  let reply :=
    if reply = "" then
      "Welcome to Étoile Noire. Tell me what you enjoy (steak, vegan, wine) or say \x27reserve\x27 to book a table."
    else reply
  { reply := reply, suggestions := suggestions, maybe_reservation := maybe_reservation }

/-- `simple_recommender` (lines 109–138): lower-case the text, then run the
five keyword-group tests of lines 114, 118, 121, 124 and 130. -/
def simple_recommender (text : String) : ChatResponse :=
  let t := pyLower text
  recCore
    (anyIn ["wine", "pairing", "sommelier"] t)
    (anyIn ["steak", "beef", "wagyu"] t)
    (anyIn ["vegan", "vegetarian"] t)
    (anyIn ["dessert", "sweet", "chocolate"] t)
    (anyIn ["book", "reserve", "table", "reservation"] t)

/-! Fixed texts of the responder, named for the specification side. -/

def wineFrag : String :=
  "Our sommelier recommends a Grand Cru Burgundy with rich mains or a vintage Champagne to open the evening."

def steakFrag : String :=
  "Our signature A5 Wagyu is seared over binchotan and finished with truffle jus."

def veganFrag : String :=
  "We offer refined plant-forward courses like Charred Romanesco with almond velouté."

def dessertFrag : String :=
  "For dessert, the Dark Chocolate Marquis adorned with gold leaf is exquisite."

def bookFrag : String :=
  "I can book a table for you. Please share date, time, and party size."

def defaultReply : String :=
  "Welcome to Étoile Noire. Tell me what you enjoy (steak, vegan, wine) or say \x27reserve\x27 to book a table."

/-- Fragments of the matched groups, in the fixed group order. -/
def matchedFrags (b1 b2 b3 b4 b5 : Bool) : List String :=
  (if b1 then [wineFrag] else []) ++ (if b2 then [steakFrag] else []) ++
  (if b3 then [veganFrag] else []) ++ (if b4 then [dessertFrag] else []) ++
  (if b5 then [bookFrag] else [])

/-- Reply as the specification claims it: matched fragments joined by single
spaces with no leading or trailing whitespace (default sentence when nothing
matched). -/
def claimedReply (b1 b2 b3 b4 b5 : Bool) : String :=
  let fs := matchedFrags b1 b2 b3 b4 b5
  if fs = [] then defaultReply else String.intercalate " " fs

/-- Reply as the code actually produces it: as `claimedReply`, except that a
single leading space remains whenever the wine group does not match and
exactly one of the other groups matches. -/
def amendedReply (b1 b2 b3 b4 b5 : Bool) : String :=
  let fs := matchedFrags b1 b2 b3 b4 b5
  if fs = [] then defaultReply
  else if b1 = false && fs.length == 1 then " " ++ String.intercalate " " fs
  else String.intercalate " " fs

theorem recCore_reply_eq (b1 b2 b3 b4 b5 : Bool) :
    (recCore b1 b2 b3 b4 b5).reply = amendedReply b1 b2 b3 b4 b5 := by
  cases b1 <;> cases b2 <;> cases b3 <;> cases b4 <;> cases b5 <;> decide

/-- Suggestions actually appended per matched group: the wine group appends
two strings (lines 115–116), the other groups one each. -/
def groupSuggestions (b1 b2 b3 b4 : Bool) : List String :=
  (if b1 then ["Grand Cru Burgundy 2015", "Vintage Champagne Brut 2008"] else []) ++
  (if b2 then ["A5 Miyazaki Wagyu with black truffle jus"] else []) ++
  (if b3 then ["Charred Romanesco with almond velouté"] else []) ++
  (if b4 then ["72% Dark Chocolate Marquis with gold leaf"] else [])

theorem recCore_suggestions_eq (b1 b2 b3 b4 b5 : Bool) :
    (recCore b1 b2 b3 b4 b5).suggestions = groupSuggestions b1 b2 b3 b4 := by
  cases b1 <;> cases b2 <;> cases b3 <;> cases b4 <;> cases b5 <;> decide

/-- All fifteen keywords of the five groups. -/
def allKeywords : List String :=
  ["wine", "pairing", "sommelier", "steak", "beef", "wagyu", "vegan", "vegetarian",
   "dessert", "sweet", "chocolate", "book", "reserve", "table", "reservation"]

/-- C2 (amended): for every input text the reply is the matched groups'
fragments joined in the fixed group order by single spaces with no trailing
whitespace, except that a single leading space remains whenever the wine group
does not match and exactly one other group matches; with no match at all the
reply is the default sentence. -/
theorem reply_is_amended_join (text : String) :
    (simple_recommender text).reply =
      amendedReply
        (anyIn ["wine", "pairing", "sommelier"] (pyLower text))
        (anyIn ["steak", "beef", "wagyu"] (pyLower text))
        (anyIn ["vegan", "vegetarian"] (pyLower text))
        (anyIn ["dessert", "sweet", "chocolate"] (pyLower text))
        (anyIn ["book", "reserve", "table", "reservation"] (pyLower text)) :=
  recCore_reply_eq _ _ _ _ _

/-- C2 (counterexample): on input "steak" only the steak group matches, so the
claimed reply would be the bare steak fragment, but the code returns it with a
leading space. -/
theorem reply_trim_counterexample :
    (simple_recommender "steak").reply = " " ++ steakFrag ∧
    (simple_recommender "steak").reply ≠ claimedReply false true false false false := by
  constructor <;> decide

/-- C3 (amended): a matched steak, vegan or dessert group appends exactly its
one fixed suggestion, a matched wine group appends exactly its two fixed
suggestions, and a group that does not match appends none, in fixed group
order. -/
theorem suggestions_per_group (text : String) :
    (simple_recommender text).suggestions =
      groupSuggestions
        (anyIn ["wine", "pairing", "sommelier"] (pyLower text))
        (anyIn ["steak", "beef", "wagyu"] (pyLower text))
        (anyIn ["vegan", "vegetarian"] (pyLower text))
        (anyIn ["dessert", "sweet", "chocolate"] (pyLower text)) :=
  recCore_suggestions_eq _ _ _ _ _

/-- C3 (counterexample): on input "wine" only the wine group matches, yet the
suggestions list has two entries, not exactly one. -/
theorem suggestions_wine_counterexample :
    (simple_recommender "wine").suggestions =
      ["Grand Cru Burgundy 2015", "Vintage Champagne Brut 2008"] ∧
    (simple_recommender "wine").suggestions.length ≠ 1 := by
  constructor <;> decide

/-- C8: whenever some keyword of the booking group occurs in the lower-cased
text, the reply contains the fixed booking invitation sentence, whatever the
other four groups do. -/
theorem booking_reply_contains_invitation (text : String)
    (h : ∃ k ∈ (["book", "reserve", "table", "reservation"] : List String),
          k.data <:+: (pyLower text).data) :
    bookFrag.data <:+: (simple_recommender text).reply.data := by
  have hb : anyIn ["book", "reserve", "table", "reservation"] (pyLower text) = true :=
    (anyIn_iff _ _).mpr h
  have hsuf : ∀ b1 b2 b3 b4 : Bool, bookFrag.data <:+ (recCore b1 b2 b3 b4 true).reply.data := by
    intro b1 b2 b3 b4
    cases b1 <;> cases b2 <;> cases b3 <;> cases b4 <;> decide
  show bookFrag.data <:+:
      (recCore _ _ _ _ (anyIn ["book", "reserve", "table", "reservation"] (pyLower text))).reply.data
  rw [hb]
  exact (hsuf _ _ _ _).isInfix

/-- C8 (witness): the text "I'd like to reserve a table" matches the booking
group and its reply contains the invitation. -/
theorem booking_reply_witness :
    (∃ k ∈ (["book", "reserve", "table", "reservation"] : List String),
        k.data <:+: (pyLower "I\x27d like to reserve a table").data) ∧
    bookFrag.data <:+: (simple_recommender "I\x27d like to reserve a table").reply.data :=
  ⟨by decide, booking_reply_contains_invitation "I\x27d like to reserve a table" (by decide)⟩

/-- C9: when no keyword of any of the five groups occurs in the lower-cased
text, the reply is exactly the fixed default welcome sentence and the
suggestions list is empty. -/
theorem no_keyword_default_reply (text : String)
    (h : ∀ k ∈ allKeywords, ¬ (k.data <:+: (pyLower text).data)) :
    (simple_recommender text).reply = defaultReply ∧
    (simple_recommender text).suggestions = [] := by
  have hf : ∀ ks : List String, (∀ k ∈ ks, k ∈ allKeywords) →
      anyIn ks (pyLower text) = false := by
    intro ks hks
    rw [Bool.eq_false_iff, Ne, anyIn_iff]
    rintro ⟨k, hk, hinf⟩
    exact h k (hks k hk) hinf
  have h1 := hf ["wine", "pairing", "sommelier"] (by decide)
  have h2 := hf ["steak", "beef", "wagyu"] (by decide)
  have h3 := hf ["vegan", "vegetarian"] (by decide)
  have h4 := hf ["dessert", "sweet", "chocolate"] (by decide)
  have h5 := hf ["book", "reserve", "table", "reservation"] (by decide)
  show (recCore _ _ _ _ _).reply = defaultReply ∧ (recCore _ _ _ _ _).suggestions = []
  rw [h1, h2, h3, h4, h5]
  exact ⟨by decide, by decide⟩

/-- C9 (witness): "hello" contains no keyword, and the responder returns the
default sentence with no suggestions. -/
theorem no_keyword_default_reply_witness :
    (∀ k ∈ allKeywords, ¬ (k.data <:+: (pyLower "hello").data)) ∧
    ((simple_recommender "hello").reply = defaultReply ∧
      (simple_recommender "hello").suggestions = []) :=
  ⟨by decide, no_keyword_default_reply "hello" (by decide)⟩

/-- C10: for every input text, the empty string included, the responder's
reply is non-empty. -/
theorem reply_never_empty (text : String) : (simple_recommender text).reply ≠ "" := by
  have hall : ∀ b1 b2 b3 b4 b5 : Bool, (recCore b1 b2 b3 b4 b5).reply ≠ "" := by
    intro b1 b2 b3 b4 b5
    cases b1 <;> cases b2 <;> cases b3 <;> cases b4 <;> cases b5 <;> decide
  exact hall _ _ _ _ _

/-! The chat endpoint (lines 96–101, 141–148). -/

/-- One chat message (lines 96–98). -/
structure ChatMessage where
  role : String
  content : String
deriving DecidableEq

/-- Body of `POST /api/chat` (lines 100–101). -/
structure ChatRequest where
  messages : List ChatMessage
deriving DecidableEq

/-- FastAPI HTTPException: a status code and a detail text. -/
structure HTTPException where
  status_code : Nat
  detail : String
deriving DecidableEq

/-- `chat_endpoint` (lines 141–148): reject an empty message list with 400,
otherwise feed the last user message (or, lacking one, the last message) to
`simple_recommender`.  `getLastD` renders the Python `[-1]` indexing, whose
fallback is unreachable because the lists are non-empty where it is used. -/
def chat_endpoint (req : ChatRequest) : Except HTTPException ChatResponse :=
  if req.messages = [] then
    Except.error ⟨400, "No messages provided"⟩
  else
    let user_texts := (req.messages.filter (fun m => m.role == "user")).map ChatMessage.content
    let last_text := user_texts.getLastD ((req.messages.getLastD ⟨"", ""⟩).content)
    Except.ok (simple_recommender last_text)

/-- Selection rule as the specification states it: the content of the last
message whose role is "user"; if none, the content of the very last message. -/
def lastUserContent (msgs : List ChatMessage) : String :=
  match msgs.reverse.find? (fun m => m.role == "user") with
  | some m => m.content
  | none => (msgs.getLastD ⟨"", ""⟩).content

/-- C6: on a non-empty message list, the chat endpoint answers with the
responder applied to the content of the last message of role "user", falling
back to the content of the very last message when no message has that role. -/
theorem chat_uses_last_user_message (req : ChatRequest) (h : req.messages ≠ []) :
    chat_endpoint req = Except.ok (simple_recommender (lastUserContent req.messages)) := by
  have hsel : ((req.messages.filter (fun m => m.role == "user")).map ChatMessage.content).getLastD
      ((req.messages.getLastD ⟨"", ""⟩).content) = lastUserContent req.messages := by
    rw [List.getLastD_eq_getLast?, List.getLast?_map, List.filter_getLast?]
    unfold lastUserContent
    cases req.messages.reverse.find? (fun m => m.role == "user") <;> rfl
  simp only [chat_endpoint, if_neg h, hsel]

/-- C6 (witness): with a user message followed by an assistant message, the
endpoint responds from the user message's content. -/
theorem chat_uses_last_user_message_witness :
    (({ messages := [⟨"user", "wine"⟩, ⟨"assistant", "ok"⟩] } : ChatRequest).messages ≠ []) ∧
    chat_endpoint { messages := [⟨"user", "wine"⟩, ⟨"assistant", "ok"⟩] } =
      Except.ok (simple_recommender (lastUserContent [⟨"user", "wine"⟩, ⟨"assistant", "ok"⟩])) :=
  ⟨by decide,
   chat_uses_last_user_message ⟨[⟨"user", "wine"⟩, ⟨"assistant", "ok"⟩]⟩ (by decide)⟩

/-- C7: the chat endpoint answers 400 exactly when the message list is empty,
and on every non-empty message list it answers with a chat response. -/
theorem chat_400_iff_empty (req : ChatRequest) :
    ((∃ d, chat_endpoint req = Except.error ⟨400, d⟩) ↔ req.messages = []) ∧
    (req.messages ≠ [] → ∃ r, chat_endpoint req = Except.ok r) := by
  constructor
  · constructor
    · rintro ⟨d, hd⟩
      by_contra hne
      simp only [chat_endpoint, if_neg hne] at hd
      exact Except.noConfusion hd
    · intro h
      exact ⟨"No messages provided", by simp only [chat_endpoint, if_pos h]⟩
  · intro h
    refine ⟨simple_recommender
        (((req.messages.filter (fun m => m.role == "user")).map ChatMessage.content).getLastD
          ((req.messages.getLastD ⟨"", ""⟩).content)), ?_⟩
    simp only [chat_endpoint, if_neg h]

/-- C7 (witness): the empty list is answered with a 400 error, a singleton
list with a response. -/
theorem chat_400_iff_empty_witness :
    (∃ d, chat_endpoint ⟨[]⟩ = Except.error ⟨400, d⟩) ∧
    (∃ r, chat_endpoint ⟨[⟨"user", "hi"⟩]⟩ = Except.ok r) :=
  ⟨(chat_400_iff_empty ⟨[]⟩).1.mpr rfl,
   (chat_400_iff_empty ⟨[⟨"user", "hi"⟩]⟩).2 (by decide)⟩

/-! The reservation-creation endpoint (lines 60–78). -/

/-- Request body of `POST /api/reservations` (lines 60–67); all four text
fields and `party_size` are required, `occasion` and `notes` optional. -/
structure ReservationCreate where
  name : String
  phone : String
  date : String
  time : String
  party_size : Int
  occasion : Option String := none
  notes : Option String := none
deriving DecidableEq

/-- The Field constraints of line 65: `party_size` between 1 and 20. -/
def reservationCreateValid (p : ReservationCreate) : Bool :=
  1 ≤ p.party_size && p.party_size ≤ 20

/-- Possible response bodies of the creation endpoint. -/
inductive RespBody where
  | okBody (id : String)
  | textDetail (detail : String)
  | validationErrors
deriving DecidableEq

/-- Handler `create_reservation` (lines 70–78).  `ReservationSchema` and
`create_document` live in schemas.py and database.py, which are absent from
the sources, so they are taken as parameters; any exception of either is
turned into a 400 whose detail is the exception text (lines 77–78). -/
def create_reservation (schemaCk : ReservationCreate → Except String ReservationCreate)
    (createDoc : String → ReservationCreate → Except String String)
    (payload : ReservationCreate) : Nat × RespBody :=
  match schemaCk payload >>= createDoc "reservation" with
  | Except.ok i => (200, RespBody.okBody i)
  | Except.error e => (400, RespBody.textDetail e)

/-- `POST /api/reservations` as served.  Before the handler runs, FastAPI
validates the request body against the `ReservationCreate` model of lines
60–67; per the framework's documented behaviour a body violating the model
(here: the party-size bounds) is answered with status 422 (Unprocessable
Entity) carrying a structured list of validation errors, and the handler is
never entered. -/
def post_api_reservations (schemaCk : ReservationCreate → Except String ReservationCreate)
    (createDoc : String → ReservationCreate → Except String String)
    (payload : ReservationCreate) : Nat × RespBody :=
  if reservationCreateValid payload then create_reservation schemaCk createDoc payload
  else (422, RespBody.validationErrors)

/-- A payload with every required field present and party_size 0. -/
def payloadSize0 : ReservationCreate :=
  { name := "Ada", phone := "0600000000", date := "2025-01-01", time := "19:00", party_size := 0 }

/-- A payload with every required field present and party_size 21. -/
def payloadSize21 : ReservationCreate :=
  { name := "Ada", phone := "0600000000", date := "2025-01-01", time := "19:00", party_size := 21 }

/-- C1 (counterexample): a payload with every required field present and
`party_size = 0` is answered with status 422, not 400. -/
theorem party_size_zero_not_400 :
    (post_api_reservations Except.ok (fun _ _ => Except.ok "65f1a2") payloadSize0).1 = 422 ∧
    (post_api_reservations Except.ok (fun _ _ => Except.ok "65f1a2") payloadSize0).1 ≠ 400 := by
  constructor <;> decide

/-- C1 (amended): for every payload with `party_size` 0 or 21 the endpoint
answers 422 with the framework's structured validation errors, whatever the
schema check and the store do. -/
theorem party_size_out_of_bounds_422
    (schemaCk : ReservationCreate → Except String ReservationCreate)
    (createDoc : String → ReservationCreate → Except String String)
    (p : ReservationCreate) (h : p.party_size = 0 ∨ p.party_size = 21) :
    post_api_reservations schemaCk createDoc p = (422, RespBody.validationErrors) := by
  have hv : reservationCreateValid p = false := by
    rcases h with h | h <;> simp only [reservationCreateValid, h] <;> decide
  simp only [post_api_reservations, hv]
  rfl

/-- C1 (amended, witness): a payload with party_size 21 is answered 422. -/
theorem party_size_out_of_bounds_422_witness :
    (payloadSize21.party_size = 0 ∨ payloadSize21.party_size = 21) ∧
    post_api_reservations Except.ok (fun _ _ => Except.ok "65f1a2") payloadSize21 =
      (422, RespBody.validationErrors) :=
  ⟨Or.inr rfl,
   party_size_out_of_bounds_422 Except.ok (fun _ _ => Except.ok "65f1a2") payloadSize21
     (Or.inr rfl)⟩

/-! The reservation-listing endpoint (lines 81–91). -/

/-- A value stored in a document: the store's internal identifier type, text,
or a number. -/
inductive BsonValue where
  | objectId (n : Nat)
  | str (s : String)
  | int (i : Int)
deriving DecidableEq

/-- A stored document, a dictionary rendered as an association list. -/
abbrev Doc := List (String × BsonValue)

/-- Python `str()` of a stored value; `str` of an internal identifier renders
it as text. -/
def bsonToString : BsonValue → String
  | BsonValue.objectId n => toString n
  | BsonValue.str s => s
  | BsonValue.int i => toString i

/-- Dictionary lookup `d[k]` (keys are unique, the first binding wins). -/
def dictGet (k : String) (d : Doc) : Option BsonValue :=
  (d.find? (fun kv => kv.1 == k)).map (fun kv => kv.2)

/-- Python `d.pop(k)`: the dictionary without the binding of `k`. -/
def dictPop (k : String) (d : Doc) : Doc := d.filter (fun kv => kv.1 != k)

/-- Python `d[k] = v`. -/
def dictSet (k : String) (v : BsonValue) (d : Doc) : Doc := dictPop k d ++ [(k, v)]

/-- Loop body of lines 86–88: `if "_id" in d: d["id"] = str(d.pop("_id"))`. -/
def convert_id (d : Doc) : Doc :=
  match dictGet "_id" d with
  | some v => dictSet "id" (BsonValue.str (bsonToString v)) (dictPop "_id" d)
  | none => d

/-- Modelled from the spec: `get_documents` of database.py (absent from the
sources) "returns up to `limit` matching records"; the caller passes the
empty filter, meaning every document of the collection. -/
def get_documents (store : List Doc) (limit : Nat) : List Doc := store.take limit

/-- `list_reservations` (lines 81–91): fetch up to `limit` reservation
documents and render each internal `_id` as a string field `id`; an adapter
failure becomes a 500 whose detail is the exception text. -/
def list_reservations (store : Except String (List Doc)) (limit : Nat) :
    Except (Nat × String) (List Doc) :=
  match store with
  | Except.error e => Except.error (500, e)
  | Except.ok docs => Except.ok ((get_documents docs limit).map convert_id)

theorem dictGet_dictSet_self (k : String) (v : BsonValue) (d : Doc) :
    dictGet k (dictSet k v d) = some v := by
  unfold dictGet dictSet dictPop
  rw [List.find?_append]
  have h1 : (d.filter (fun kv => kv.1 != k)).find? (fun kv => kv.1 == k) = none := by
    rw [List.find?_eq_none]
    intro a ha
    have h2 := (List.mem_filter.mp ha).2
    simpa [bne] using h2
  rw [h1]
  simp [List.find?]

/-- C4: whatever the store holds, listing with `limit = N` yields at most `N`
items, and every item of a successful answer carries an `id` that is a string
(assuming, per the data model, every stored document has an internal `_id`). -/
theorem list_reservations_limit_and_string_id (store : List Doc) (limit : Nat)
    (items : List Doc)
    (hid : ∀ d ∈ store, (dictGet "_id" d).isSome)
    (h : list_reservations (Except.ok store) limit = Except.ok items) :
    items.length ≤ limit ∧
    ∀ d ∈ items, ∃ s, dictGet "id" d = some (BsonValue.str s) := by
  have hitems : items = (store.take limit).map convert_id := by
    simpa [list_reservations, get_documents] using h.symm
  subst hitems
  constructor
  · simp only [List.length_map, List.length_take]
    exact Nat.min_le_left _ _
  · intro d hd
    rw [List.mem_map] at hd
    obtain ⟨d0, hd0, rfl⟩ := hd
    have hd0s : d0 ∈ store := List.take_subset _ _ hd0
    have hsome := hid d0 hd0s
    rw [Option.isSome_iff_exists] at hsome
    obtain ⟨v, hv⟩ := hsome
    unfold convert_id
    rw [hv]
    exact ⟨bsonToString v, dictGet_dictSet_self _ _ _⟩

/-- A sample store of two reservation documents. -/
def sampleStore : List Doc :=
  [[("_id", BsonValue.objectId 7), ("name", BsonValue.str "Ada")],
   [("_id", BsonValue.objectId 8)]]

/-- The items the listing endpoint returns on `sampleStore` with limit 1. -/
def sampleItems : List Doc :=
  [[("name", BsonValue.str "Ada"), ("id", BsonValue.str "7")]]

/-- C4 (witness): a two-document store listed with limit 1 yields one item
whose `id` is the identifier rendered as a string. -/
theorem list_reservations_limit_and_string_id_witness :
    (∀ d ∈ sampleStore, (dictGet "_id" d).isSome) ∧
    list_reservations (Except.ok sampleStore) 1 = Except.ok sampleItems ∧
    sampleItems.length ≤ 1 ∧
    (∀ d ∈ sampleItems, ∃ s, dictGet "id" d = some (BsonValue.str s)) :=
  ⟨by decide, by rfl,
   list_reservations_limit_and_string_id sampleStore 1 sampleItems (by decide) (by rfl)⟩

/-! The diagnostic endpoint (lines 26–55). -/

/-- Python `s[:n]`. -/
def strTake (n : Nat) (s : String) : String := ⟨s.data.take n⟩

/-- Modelled from the spec: the store handle `db` of database.py (absent from
the sources).  It is either `None`, or a handle with an optional `name`
attribute whose `list_collection_names()` either returns the collection names
or raises with a message. -/
inductive DbHandle where
  | missing
  | conn (name : Option String) (colls : Except String (List String))

/-- Response body of `GET /test` (lines 29–36). -/
structure TestResponse where
  backend : String
  database : String
  database_url : Option String
  database_name : Option String
  connection_status : String
  collections : List String
deriving DecidableEq

/-- `test_database` (lines 26–55): every outcome, the store being absent or
its calls raising included, is rendered into the response record; the
collection list is capped to the first 10 names (line 46); the handler never
raises, so the framework answers 200 with this body. -/
def test_database (db : DbHandle) (urlSet : Bool) : Nat × TestResponse :=
  let response : TestResponse :=
    { backend := "✅ Running", database := "❌ Not Available", database_url := none,
      database_name := none, connection_status := "Not Connected", collections := [] }
  match db with
  | DbHandle.missing => (200, { response with database := "⚠️  Available but not initialized" })
  | DbHandle.conn nm colls =>
    let response := { response with
      database := "✅ Available",
      database_url := some (if urlSet then "✅ Set" else "❌ Not Set"),
      database_name := some (nm.getD "✅ Connected"),
      connection_status := "Connected" }
    match colls with
    | Except.ok cs =>
      (200, { response with collections := cs.take 10, database := "✅ Connected & Working" })
    | Except.error e =>
      (200, { response with database := "⚠️  Connected but Error: " ++ strTake 50 e })

/-- C5: for every store state the diagnostic endpoint answers 200 with a
response body, and the collections list holds at most the first 10 names. -/
theorem test_database_always_200_capped (db : DbHandle) (urlSet : Bool) :
    (test_database db urlSet).1 = 200 ∧
    (test_database db urlSet).2.collections.length ≤ 10 := by
  cases db with
  | missing => exact ⟨rfl, by simp [test_database]⟩
  | conn nm colls =>
    cases colls with
    | ok cs =>
      refine ⟨rfl, ?_⟩
      simp only [test_database, List.length_take]
      exact Nat.min_le_left _ _
    | error e => exact ⟨rfl, by simp [test_database]⟩

end EtoileNoire
